import Mathlib

/-!
Verification development for the GST automation tool frontend.

This file gives a shallow embedding of the client-side logic of the
repository (status poller, upload submission unit, session store,
history view) and proves the specified properties about it.

Conventions of the embedding:
- asynchronous request outcomes are passed in explicitly (as values of
  an Except type or as explicit response values), so stateful handlers
  become pure functions from a state and a response to a new state;
- JavaScript runtime errors are modelled by a structure carrying the
  message and the optional axios response detail field, so that the
  idiom err.response?.data?.detail || fallback is expressible;
- observable side effects (callback invocations, storage writes,
  scheduled timers, issued requests) are recorded in the result state
  as counters, lists, or event traces.
-/

namespace GstTool

/-! ## Constants (src/frontend/src/utils/constants.ts) -/

/-- Maximum accepted upload size in bytes: 50 * 1024 * 1024. -/
def MAX_FILE_SIZE : Nat := 50 * 1024 * 1024

/-- Fixed polling interval in milliseconds. -/
def POLL_INTERVAL : Nat := 2000

/-! ## Types (src/frontend/src/types, TypeScript interfaces) -/

/-- Envelope shape of upload and status endpoints. -/
structure ApiResponse (T : Type) where
  success : Bool
  message : String
  data : Option T
  error : Option String
deriving DecidableEq

/-- Body of a status poll response. The progress field is typed as a
number in TypeScript but guarded with a falsy-default in the poller,
so it is modelled as optional here. -/
structure StatusResponse where
  id : Nat
  status : String
  task_id : Option String
  processed_file_path : Option String
  error_message : Option String
  progress : Option Nat
deriving DecidableEq

/-- String values of the ProcessingStatus enum. -/
def ProcessingStatus.PENDING : String := "pending"

/-- String value of the processing member of the enum. -/
def ProcessingStatus.PROCESSING : String := "processing"

/-- String value of the completed member of the enum. -/
def ProcessingStatus.COMPLETED : String := "completed"

/-- String value of the failed member of the enum. -/
def ProcessingStatus.FAILED : String := "failed"

/-! ## Status poller (src/frontend/src/components/ProcessingStatus.tsx)

The component keeps progress, status and message state, an interval
handle, and reports terminal statuses to its parent through the
onStatusUpdate callback. One invocation of pollStatus is modelled by
pollStep, consuming the outcome of the getStatus request: either a
thrown fetch error or an ApiResponse envelope. -/

/-- Outcome of one getStatus request as seen by pollStatus. -/
inductive PollResponse where
  | ok (resp : ApiResponse StatusResponse)
  | err
deriving DecidableEq

/-- Observable state of the poller: the three useState cells, whether
the interval is still scheduled (not cleared), the list of statuses
reported through onStatusUpdate, the number of errors logged by the
catch block, and the number of status requests issued. -/
structure PollerState where
  progress : Nat
  status : String
  message : String
  running : Bool
  notifications : List String
  errorsLogged : Nat
  requests : Nat
deriving DecidableEq

/-- Initial component state: progress 0, status processing, message
Initializing..., interval scheduled, nothing reported yet. -/
def initState : PollerState :=
  { progress := 0
    status := ProcessingStatus.PROCESSING
    message := "Initializing..."
    running := true
    notifications := []
    errorsLogged := 0
    requests := 0 }

/-- Message selection of pollStatus: exact-match thresholds at 25, 50,
75 and 100; any other progress value keeps the previous message. -/
def pollMessage (progress : Option Nat) (old : String) : String :=
  if progress = some 25 then "Reading Excel file..."
  else if progress = some 50 then "Classifying transactions..."
  else if progress = some 75 then "Validating data..."
  else if progress = some 100 then "Processing complete!"
  else old

/-- One execution of pollStatus given the request outcome. A thrown
error is logged and nothing else changes. A response with success and
non-null data updates status, progress (falsy-defaulted to 0) and the
message; a terminal status is additionally reported to the parent and
the interval is cleared. Any other envelope is ignored. -/
def pollStep (s : PollerState) (r : PollResponse) : PollerState :=
  let s0 := { s with requests := s.requests + 1 }
  match r with
  | .err => { s0 with errorsLogged := s0.errorsLogged + 1 }
  | .ok resp =>
    match resp.success, resp.data with
    | true, some d =>
      let s1 := { s0 with
                  status := d.status
                  progress := d.progress.getD 0
                  message := pollMessage d.progress s.message }
      if d.status = ProcessingStatus.COMPLETED ∨ d.status = ProcessingStatus.FAILED then
        { s1 with notifications := s1.notifications ++ [d.status], running := false }
      else s1
    | _, _ => s0

/-- Interval loop: while the interval is scheduled, each tick issues a
request and consumes the next response; once cleared, no further
response is consumed. -/
def runPoller (s : PollerState) : List PollResponse → PollerState
  | [] => s
  | r :: rs => if s.running then runPoller (pollStep s r) rs else s

/-- Delay until the next scheduled poll, if one is scheduled. -/
def nextPollDelay (s : PollerState) : Option Nat :=
  if s.running then some POLL_INTERVAL else none

/-- Whether a poll response is a well-formed envelope carrying a
terminal status, which is exactly the condition under which pollStatus
notifies the parent and clears the interval. -/
def isTerminalResponse : PollResponse → Bool
  | .ok resp =>
    match resp.success, resp.data with
    | true, some d =>
      decide (d.status = ProcessingStatus.COMPLETED) ||
        decide (d.status = ProcessingStatus.FAILED)
    | _, _ => false
  | .err => false

/-! ## Upload submission unit (FileUpload component and useFileUpload)

The onDrop callback takes the accepted file list, considers only the
first file, rejects an oversized file before calling upload, and maps
the upload outcome to the success and error callbacks. -/

/-- Client-picked file: name and size in bytes. -/
structure FileInfo where
  name : String
  size : Nat
deriving DecidableEq

/-- Outcome of the upload request issued by the useFileUpload hook. -/
inductive UploadResult where
  | success (id : Nat)
  | failure (message : String)
deriving DecidableEq

/-- Observable effects of one onDrop invocation: messages passed to
onUploadError, identifiers passed to onUploadSuccess, the number of
upload network calls issued, and the selected file state. -/
structure DropOutcome where
  errorReports : List String
  successReports : List Nat
  uploadCalls : Nat
  selectedFile : Option FileInfo
deriving DecidableEq

/-- The onDrop handler of FileUpload, with the outcome of the upload
request passed explicitly. -/
def onDrop (acceptedFiles : List FileInfo) (uploadResult : UploadResult) : DropOutcome :=
  match acceptedFiles.head? with
  | none => ⟨[], [], 0, none⟩
  | some file =>
    if file.size > MAX_FILE_SIZE then
      ⟨["File size exceeds 10MB limit"], [], 0, none⟩
    else
      match uploadResult with
      | .success id => ⟨[], [id], 1, some file⟩
      | .failure msg => ⟨[msg], [], 1, some file⟩

/-! ## Session store (AuthProvider in the auth context source file)

The provider keeps a user cell and a loading cell, reads and writes
the access_token key of localStorage, and navigates with the router.
The outcomes of the three api calls it performs are supplied through
an environment record, with the credential-taking calls modelled as
functions of their request body. -/

/-- Authenticated user record. -/
structure User where
  id : Nat
  email : String
  username : String
  full_name : Option String
  is_active : Bool
  is_verified : Bool
  created_at : String
  last_login : Option String
deriving DecidableEq

/-- Body of the login request. -/
structure LoginRequest where
  username : String
  password : String
deriving DecidableEq

/-- Body of the signup request. -/
structure SignupRequest where
  email : String
  username : String
  password : String
  full_name : Option String
deriving DecidableEq

/-- Successful login response. -/
structure AuthResponse where
  access_token : String
  token_type : String
deriving DecidableEq

/-- JavaScript error value as observed by the catch blocks: the Error
message and the optional err.response?.data?.detail field of an axios
rejection. An Error built with the Error constructor has no response
payload, so its detail field is none. -/
structure JsError where
  message : String
  responseDetail : Option String
deriving DecidableEq

/-- Result of the new Error(msg) constructor. -/
def jsNewError (msg : String) : JsError := ⟨msg, none⟩

/-- Outcomes of the api calls available to the provider. -/
structure AuthEnv where
  loginApi : LoginRequest → Except JsError AuthResponse
  getUser : Except JsError User
  signupApi : SignupRequest → Except JsError User

/-- Client-observable session state: the persisted token, the user
cell, and the current route pushed by the router. -/
structure AuthState where
  token : Option String
  user : Option User
  route : Option String
deriving DecidableEq

/-- The login operation: submit credentials, persist the returned
token, resolve the user, navigate; any failure inside the try block is
rethrown as new Error(detail-or-fallback). The token persisted before
a failing getCurrentUser call is not removed. -/
def login (env : AuthEnv) (data : LoginRequest) (s : AuthState) :
    Except JsError Unit × AuthState :=
  match env.loginApi data with
  | .error e => (.error (jsNewError (e.responseDetail.getD "Login failed")), s)
  | .ok resp =>
    match env.getUser with
    | .error e =>
      (.error (jsNewError (e.responseDetail.getD "Login failed")),
        { s with token := some resp.access_token })
    | .ok u =>
      (.ok (),
        { s with token := some resp.access_token
                 user := some u
                 route := some "/select-gst-type" })

/-- The signup operation: submit the registration, then auto-login
with the same username and password; any failure inside the try block
is rethrown as new Error(detail-or-fallback). -/
def signup (env : AuthEnv) (data : SignupRequest) (s : AuthState) :
    Except JsError Unit × AuthState :=
  match env.signupApi data with
  | .error e => (.error (jsNewError (e.responseDetail.getD "Signup failed")), s)
  | .ok _ =>
    match login env { username := data.username, password := data.password } s with
    | (.error e, s1) => (.error (jsNewError (e.responseDetail.getD "Signup failed")), s1)
    | (.ok u, s1) => (.ok u, s1)

/-- The logout operation: remove the token, clear the user, navigate
to the login page. The operation performs no fallible call, so its
result is always ok. -/
def logout (s : AuthState) : Except JsError Unit × AuthState :=
  (.ok (), { s with token := none, user := none, route := some "/login" })

/-- Effects performed during checkAuth, in order. -/
inductive AuthEvent where
  | resolveAttempt
  | setUserEv (u : User)
  | removeTokenEv
  | setLoadingEv (b : Bool)
deriving DecidableEq

/-- Whether an event is an identity-resolution request. -/
def isResolveAttempt : AuthEvent → Bool
  | .resolveAttempt => true
  | _ => false

/-- Whether an event is a write to the loading cell. -/
def isSetLoadingEv : AuthEvent → Bool
  | .setLoadingEv _ => true
  | _ => false

/-- Event trace of checkAuth on mount, given the persisted token and
the outcome of the getCurrentUser call: with a token present, one
resolution attempt whose failure removes the token; in every case a
single final write of false to the loading cell. -/
def checkAuthEvents (storedToken : Option String) (getUser : Except JsError User) :
    List AuthEvent :=
  (match storedToken with
   | none => []
   | some _ =>
     match getUser with
     | .ok u => [.resolveAttempt, .setUserEv u]
     | .error _ => [.resolveAttempt, .removeTokenEv]) ++ [.setLoadingEv false]

/-- Mount-time state of the provider: token, user cell, loading cell. -/
structure MountState where
  token : Option String
  user : Option User
  loading : Bool
deriving DecidableEq

/-- State of the provider before checkAuth runs: the persisted token,
no user, loading true. -/
def initialMountState (storedToken : Option String) : MountState :=
  ⟨storedToken, none, true⟩

/-- Final state after checkAuth given the persisted token and the
outcome of the getCurrentUser call. -/
def checkAuthFinal (storedToken : Option String) (getUser : Except JsError User) :
    MountState :=
  match storedToken with
  | none => ⟨none, none, false⟩
  | some t =>
    match getUser with
    | .ok u => ⟨some t, some u, false⟩
    | .error _ => ⟨none, none, false⟩

/-! ## History view (FileHistory component)

Status icon and color are keyed off the lowercased status string, and
the file size is rendered by (bytes / 1024 / 1024).toFixed(2). The
toLowerCase call is embedded as an ASCII lowercasing map, and toFixed
semantics on an exact rational value: the integer number of hundredths
nearest to the value (ties upward), rendered with two fraction
digits. -/

/-- ASCII lowercasing of one character, as toLowerCase acts on the
status strings of the four-state enum. -/
def lowerChar (c : Char) : Char :=
  if 65 ≤ c.toNat ∧ c.toNat ≤ 90 then Char.ofNat (c.toNat + 32) else c

/-- Lowercasing of a string, character by character. -/
def lowerString (s : String) : String := ⟨s.data.map lowerChar⟩

/-- Icons used by the history table. -/
inductive StatusIcon where
  | checkCircle
  | xCircle
  | loader
  | clock
deriving DecidableEq

/-- Icon selection of FileHistory, keyed off the lowercased status. -/
def getStatusIcon (status : String) : StatusIcon :=
  if lowerString status = "completed" then StatusIcon.checkCircle
  else if lowerString status = "failed" then StatusIcon.xCircle
  else if lowerString status = "processing" then StatusIcon.loader
  else StatusIcon.clock

/-- Badge color classes of FileHistory, keyed off the lowercased
status. -/
def getStatusColor (status : String) : String :=
  if lowerString status = "completed" then "bg-green-100 text-green-800"
  else if lowerString status = "failed" then "bg-red-100 text-red-800"
  else if lowerString status = "processing" then "bg-blue-100 text-blue-800"
  else "bg-gray-100 text-gray-800"

/-- Two-digit rendering of the fractional hundredths. -/
def padFrac (m : ℤ) : String :=
  if m < 10 then "0" ++ toString m else toString m

/-- Rendering of a nonnegative rational with exactly two decimal
places, as toFixed(2) renders it: the nearest number of hundredths,
ties rounding up. -/
def toFixed2 (q : ℚ) : String :=
  toString ((⌊q * 100 + 1 / 2⌋ : ℤ) / 100) ++ "." ++ padFrac (⌊q * 100 + 1 / 2⌋ % 100)

/-- File size rendering of FileHistory: (bytes / 1024 / 1024)
formatted with toFixed(2). -/
def formatFileSize (bytes : ℕ) : String :=
  toFixed2 ((bytes : ℚ) / 1024 / 1024)

/-- Number of hundredths of a mebibyte represented by a byte count,
rounded to nearest with ties upward. This is the value displayed by
formatFileSize. -/
def mibCents (bytes : ℕ) : ℤ :=
  ⌊(bytes : ℚ) / 1024 / 1024 * 100 + 1 / 2⌋

/-! ## Concrete scenario values -/

/-- Example user record used in concrete scenarios. -/
def sampleUser : User :=
  ⟨1, "alice@example.com", "alice", none, true, false, "2024-01-01T00:00:00", none⟩

/-- Registration details used in concrete scenarios. -/
def sampleSignup : SignupRequest := ⟨"alice@example.com", "alice", "secret", none⟩

/-- Session state before any authentication. -/
def emptyAuthState : AuthState := ⟨none, none, none⟩

/-- Environment in which signup succeeds and login is rejected with an
Invalid credentials detail from the server. -/
def badLoginEnv : AuthEnv :=
  { loginApi := fun _ =>
      .error ⟨"Request failed with status code 401", some "Invalid credentials"⟩
    getUser := .error (jsNewError "no session")
    signupApi := fun _ => .ok sampleUser }

/-- Environment in which login succeeds but identity resolution
fails. -/
def brokenGetUserEnv : AuthEnv :=
  { loginApi := fun _ => .ok ⟨"tok123", "bearer"⟩
    getUser := .error ⟨"Request failed with status code 500",
      some "Could not validate credentials"⟩
    signupApi := fun _ => .ok sampleUser }

/-! ## Lemmas about the poller step -/

/-- A thrown fetch error only logs and counts the request. -/
lemma pollStep_err (s : PollerState) :
    pollStep s .err =
      { s with requests := s.requests + 1, errorsLogged := s.errorsLogged + 1 } := rfl

/-- An envelope without success or without data is ignored. -/
lemma pollStep_ignored (s : PollerState) (resp : ApiResponse StatusResponse)
    (h : resp.success = false ∨ resp.data = none) :
    pollStep s (.ok resp) = { s with requests := s.requests + 1 } := by
  obtain ⟨succ, msg, data, err⟩ := resp
  rcases h with h | h
  · simp only at h
    subst h
    cases data <;> rfl
  · simp only at h
    subst h
    cases succ <;> rfl

/-- A successful envelope with data updates the three cells and, on a
terminal status, reports it and clears the interval. -/
lemma pollStep_update (s : PollerState) (resp : ApiResponse StatusResponse)
    (d : StatusResponse) (hs : resp.success = true) (hd : resp.data = some d) :
    pollStep s (.ok resp) =
      if d.status = ProcessingStatus.COMPLETED ∨ d.status = ProcessingStatus.FAILED then
        { s with requests := s.requests + 1
                 status := d.status
                 progress := d.progress.getD 0
                 message := pollMessage d.progress s.message
                 notifications := s.notifications ++ [d.status]
                 running := false }
      else
        { s with requests := s.requests + 1
                 status := d.status
                 progress := d.progress.getD 0
                 message := pollMessage d.progress s.message } := by
  obtain ⟨succ, msg, data, err⟩ := resp
  simp only at hs hd
  subst hs
  subst hd
  simp only [pollStep]

/-- Terminal form of the update lemma. -/
lemma pollStep_terminal (s : PollerState) (resp : ApiResponse StatusResponse)
    (d : StatusResponse) (hs : resp.success = true) (hd : resp.data = some d)
    (hterm : d.status = ProcessingStatus.COMPLETED ∨ d.status = ProcessingStatus.FAILED) :
    pollStep s (.ok resp) =
      { s with requests := s.requests + 1
               status := d.status
               progress := d.progress.getD 0
               message := pollMessage d.progress s.message
               notifications := s.notifications ++ [d.status]
               running := false } := by
  rw [pollStep_update s resp d hs hd, if_pos hterm]

/-- A non-terminal response never reports, never clears the interval,
and issues exactly one request. -/
lemma pollStep_nonterminal_inv (s : PollerState) (r : PollResponse)
    (h : isTerminalResponse r = false) :
    (pollStep s r).running = s.running ∧
    (pollStep s r).notifications = s.notifications ∧
    (pollStep s r).requests = s.requests + 1 := by
  cases r with
  | err => rw [pollStep_err]; exact ⟨rfl, rfl, rfl⟩
  | ok resp =>
    obtain ⟨succ, msg, data, err⟩ := resp
    cases succ with
    | false =>
      rw [pollStep_ignored _ _ (Or.inl rfl)]
      exact ⟨rfl, rfl, rfl⟩
    | true =>
      cases data with
      | none =>
        rw [pollStep_ignored _ _ (Or.inr rfl)]
        exact ⟨rfl, rfl, rfl⟩
      | some d =>
        simp only [isTerminalResponse, Bool.or_eq_false_iff, decide_eq_false_iff_not] at h
        rw [pollStep_update _ _ d rfl rfl, if_neg (not_or.mpr h)]
        exact ⟨rfl, rfl, rfl⟩

/-- A stopped poller consumes no responses. -/
lemma runPoller_not_running (s : PollerState) (rs : List PollResponse)
    (h : s.running = false) : runPoller s rs = s := by
  cases rs with
  | nil => rfl
  | cons r rs => simp [runPoller, h]

/-- Splitting a response trace. -/
lemma runPoller_append (s : PollerState) (as bs : List PollResponse) :
    runPoller s (as ++ bs) = runPoller (runPoller s as) bs := by
  induction as generalizing s with
  | nil => rfl
  | cons a as ih =>
    cases hr : s.running with
    | true => simp [runPoller, hr, ih]
    | false => simp [runPoller, hr, runPoller_not_running _ bs hr]

/-- Running over non-terminal responses keeps the interval scheduled,
reports nothing, and issues one request per response. -/
lemma runPoller_nonterminal (rs : List PollResponse) (s : PollerState)
    (h : ∀ r ∈ rs, isTerminalResponse r = false) (hrun : s.running = true) :
    (runPoller s rs).running = true ∧
    (runPoller s rs).notifications = s.notifications ∧
    (runPoller s rs).requests = s.requests + rs.length := by
  induction rs generalizing s with
  | nil => exact ⟨hrun, rfl, rfl⟩
  | cons r rs ih =>
    have hstep := pollStep_nonterminal_inv s r (h r (List.mem_cons_self r rs))
    have hrun2 : (pollStep s r).running = true := by rw [hstep.1, hrun]
    have hrec := ih (pollStep s r) (fun x hx => h x (List.mem_cons_of_mem r hx)) hrun2
    have hunf : runPoller s (r :: rs) = runPoller (pollStep s r) rs := by
      simp [runPoller, hrun]
    rw [hunf]
    refine ⟨hrec.1, hrec.2.1.trans hstep.2.1, ?_⟩
    rw [hrec.2.2, hstep.2.2]
    simp only [List.length_cons]
    omega

/-! ## Claim theorems for the poller -/

/-- Claim C1: for every sequence of poll responses whose last response
reports a terminal status (completed or failed) and whose earlier
responses are non-terminal, the poller notifies its consumer exactly
once with that terminal status and clears the interval, and no further
status request is issued no matter what responses would follow. -/
theorem c1_terminal_notifies_once_and_stops
    (rs extra : List PollResponse) (resp : ApiResponse StatusResponse) (d : StatusResponse)
    (hnt : ∀ r ∈ rs, isTerminalResponse r = false)
    (hs : resp.success = true) (hd : resp.data = some d)
    (hterm : d.status = ProcessingStatus.COMPLETED ∨ d.status = ProcessingStatus.FAILED) :
    (runPoller initState (rs ++ PollResponse.ok resp :: extra)).notifications = [d.status] ∧
    (runPoller initState (rs ++ PollResponse.ok resp :: extra)).running = false ∧
    (runPoller initState (rs ++ PollResponse.ok resp :: extra)).requests = rs.length + 1 := by
  have h1 := runPoller_nonterminal rs initState hnt rfl
  have hterm2 := pollStep_terminal (runPoller initState rs) resp d hs hd hterm
  have hcons : runPoller (runPoller initState rs) (PollResponse.ok resp :: extra) =
      runPoller (pollStep (runPoller initState rs) (.ok resp)) extra := by
    simp [runPoller, h1.1]
  have hstop : (pollStep (runPoller initState rs) (.ok resp)).running = false := by
    rw [hterm2]
  rw [runPoller_append, hcons, runPoller_not_running _ extra hstop, hterm2]
  refine ⟨?_, rfl, ?_⟩
  · show (runPoller initState rs).notifications ++ [d.status] = [d.status]
    rw [h1.2.1]
    rfl
  · show (runPoller initState rs).requests + 1 = rs.length + 1
    rw [h1.2.2]
    simp [initState]

/-- Claim C1 witness: one non-terminal poll, then a completed poll,
with one further response available that is never requested. -/
theorem c1_witness :
    (runPoller initState
      ([PollResponse.ok ⟨true, "", some ⟨7, "processing", none, none, none, some 25⟩, none⟩] ++
        PollResponse.ok ⟨true, "", some ⟨7, "completed", none, none, none, some 100⟩, none⟩ ::
          [PollResponse.ok ⟨true, "", some ⟨7, "completed", none, none, none, some 100⟩, none⟩])).notifications =
      ["completed"] ∧
    (runPoller initState
      ([PollResponse.ok ⟨true, "", some ⟨7, "processing", none, none, none, some 25⟩, none⟩] ++
        PollResponse.ok ⟨true, "", some ⟨7, "completed", none, none, none, some 100⟩, none⟩ ::
          [PollResponse.ok ⟨true, "", some ⟨7, "completed", none, none, none, some 100⟩, none⟩])).running =
      false ∧
    (runPoller initState
      ([PollResponse.ok ⟨true, "", some ⟨7, "processing", none, none, none, some 25⟩, none⟩] ++
        PollResponse.ok ⟨true, "", some ⟨7, "completed", none, none, none, some 100⟩, none⟩ ::
          [PollResponse.ok ⟨true, "", some ⟨7, "completed", none, none, none, some 100⟩, none⟩])).requests =
      [PollResponse.ok ⟨true, "", some ⟨7, "processing", none, none, none, some 25⟩, none⟩].length + 1 :=
  c1_terminal_notifies_once_and_stops
    [PollResponse.ok ⟨true, "", some ⟨7, "processing", none, none, none, some 25⟩, none⟩]
    [PollResponse.ok ⟨true, "", some ⟨7, "completed", none, none, none, some 100⟩, none⟩]
    ⟨true, "", some ⟨7, "completed", none, none, none, some 100⟩, none⟩
    ⟨7, "completed", none, none, none, some 100⟩
    (by decide) rfl rfl (Or.inl rfl)

/-- Claim C3: a poll whose fetch throws is only logged: progress,
status, message and notifications are unchanged, nothing is surfaced,
and the next poll stays scheduled at the fixed 2000 ms interval. -/
theorem c3_poll_error_swallowed (s : PollerState) (hrun : s.running = true) :
    (pollStep s .err).progress = s.progress ∧
    (pollStep s .err).status = s.status ∧
    (pollStep s .err).message = s.message ∧
    (pollStep s .err).notifications = s.notifications ∧
    (pollStep s .err).errorsLogged = s.errorsLogged + 1 ∧
    nextPollDelay (pollStep s .err) = some POLL_INTERVAL ∧
    POLL_INTERVAL = 2000 := by
  rw [pollStep_err]
  refine ⟨rfl, rfl, rfl, rfl, rfl, ?_, rfl⟩
  simp [nextPollDelay, hrun]

/-- Claim C3 witness: the initial poller state processing a failed
fetch. -/
theorem c3_witness :
    (pollStep initState .err).progress = initState.progress ∧
    (pollStep initState .err).status = initState.status ∧
    (pollStep initState .err).message = initState.message ∧
    (pollStep initState .err).notifications = initState.notifications ∧
    (pollStep initState .err).errorsLogged = initState.errorsLogged + 1 ∧
    nextPollDelay (pollStep initState .err) = some POLL_INTERVAL ∧
    POLL_INTERVAL = 2000 :=
  c3_poll_error_swallowed initState rfl

/-- Claim C6: a successful poll response updates the numeric progress
display in every case, while the phase label changes only when the
progress is exactly 25, 50, 75 or 100; any other value leaves the
previous label unchanged. -/
theorem c6_exact_match_thresholds (s : PollerState) (resp : ApiResponse StatusResponse)
    (d : StatusResponse) (hs : resp.success = true) (hd : resp.data = some d) :
    (pollStep s (.ok resp)).progress = d.progress.getD 0 ∧
    (d.progress = some 25 → (pollStep s (.ok resp)).message = "Reading Excel file...") ∧
    (d.progress = some 50 → (pollStep s (.ok resp)).message = "Classifying transactions...") ∧
    (d.progress = some 75 → (pollStep s (.ok resp)).message = "Validating data...") ∧
    (d.progress = some 100 → (pollStep s (.ok resp)).message = "Processing complete!") ∧
    (d.progress ≠ some 25 → d.progress ≠ some 50 → d.progress ≠ some 75 →
      d.progress ≠ some 100 → (pollStep s (.ok resp)).message = s.message) := by
  have he := pollStep_update s resp d hs hd
  have hm : (pollStep s (.ok resp)).message = pollMessage d.progress s.message := by
    rw [he]; split <;> rfl
  have hp : (pollStep s (.ok resp)).progress = d.progress.getD 0 := by
    rw [he]; split <;> rfl
  refine ⟨hp, ?_, ?_, ?_, ?_, ?_⟩
  · intro h25
    rw [hm]
    simp [pollMessage, h25]
  · intro h50
    rw [hm]
    simp [pollMessage, h50]
  · intro h75
    rw [hm]
    simp [pollMessage, h75]
  · intro h100
    rw [hm]
    simp [pollMessage, h100]
  · intro h25 h50 h75 h100
    rw [hm]
    simp [pollMessage, h25, h50, h75, h100]

/-- Claim C6 witness: progress 30 updates the percentage but leaves
the initial label in place. -/
theorem c6_witness :
    (pollStep initState
      (.ok ⟨true, "", some ⟨1, "processing", none, none, none, some 30⟩, none⟩)).progress = 30 ∧
    (pollStep initState
      (.ok ⟨true, "", some ⟨1, "processing", none, none, none, some 30⟩, none⟩)).message =
      "Initializing..." := by
  have h := c6_exact_match_thresholds initState
    ⟨true, "", some ⟨1, "processing", none, none, none, some 30⟩, none⟩
    ⟨1, "processing", none, none, none, some 30⟩ rfl rfl
  exact ⟨h.1, h.2.2.2.2.2 (by decide) (by decide) (by decide) (by decide)⟩

/-- Claim C10: an envelope with success false or null data is silently
ignored: no cell changes, the consumer is not notified even when the
carried status is terminal, and the next poll stays scheduled. -/
theorem c10_malformed_envelope_ignored (s : PollerState) (resp : ApiResponse StatusResponse)
    (h : resp.success = false ∨ resp.data = none) :
    pollStep s (.ok resp) = { s with requests := s.requests + 1 } ∧
    (pollStep s (.ok resp)).notifications = s.notifications ∧
    (pollStep s (.ok resp)).running = s.running ∧
    (pollStep s (.ok resp)).progress = s.progress ∧
    (pollStep s (.ok resp)).status = s.status ∧
    (pollStep s (.ok resp)).message = s.message ∧
    nextPollDelay (pollStep s (.ok resp)) = nextPollDelay s := by
  have he := pollStep_ignored s resp h
  rw [he]
  exact ⟨rfl, rfl, rfl, rfl, rfl, rfl, rfl⟩

/-! ## Claim theorems for the upload submission unit -/

/-- Claim C2: a dropped file whose size strictly exceeds
MAX_FILE_SIZE (50 * 1024 * 1024 bytes) is reported through the error
callback and the handler returns before the upload network call is
issued, whatever outcome that call would have had. -/
theorem c2_oversize_rejected_before_upload (file : FileInfo) (rest : List FileInfo)
    (u : UploadResult) (hsize : file.size > MAX_FILE_SIZE) :
    (onDrop (file :: rest) u).uploadCalls = 0 ∧
    (onDrop (file :: rest) u).errorReports = ["File size exceeds 10MB limit"] ∧
    (onDrop (file :: rest) u).successReports = [] ∧
    MAX_FILE_SIZE = 50 * 1024 * 1024 := by
  refine ⟨?_, ?_, ?_, rfl⟩ <;> simp [onDrop, hsize]

/-- Claim C2 witness: a 60 MiB file is rejected with no upload call
even though the upload would have succeeded. -/
theorem c2_witness :
    (onDrop [⟨"big.xlsx", 60 * 1024 * 1024⟩] (UploadResult.success 42)).uploadCalls = 0 ∧
    (onDrop [⟨"big.xlsx", 60 * 1024 * 1024⟩] (UploadResult.success 42)).errorReports =
      ["File size exceeds 10MB limit"] ∧
    (onDrop [⟨"big.xlsx", 60 * 1024 * 1024⟩] (UploadResult.success 42)).successReports = [] ∧
    MAX_FILE_SIZE = 50 * 1024 * 1024 :=
  c2_oversize_rejected_before_upload ⟨"big.xlsx", 60 * 1024 * 1024⟩ []
    (UploadResult.success 42) (by decide)

/-- Claim C10 witness: an envelope with success false that nominally
carries a completed status is ignored by the initial poller state. -/
theorem c10_witness :
    pollStep initState
        (.ok ⟨false, "", some ⟨1, "completed", none, none, none, some 100⟩, none⟩) =
      { initState with requests := initState.requests + 1 } ∧
    (pollStep initState
        (.ok ⟨false, "", some ⟨1, "completed", none, none, none, some 100⟩, none⟩)).notifications =
      initState.notifications :=
  ⟨(c10_malformed_envelope_ignored initState
      ⟨false, "", some ⟨1, "completed", none, none, none, some 100⟩, none⟩ (Or.inl rfl)).1,
   (c10_malformed_envelope_ignored initState
      ⟨false, "", some ⟨1, "completed", none, none, none, some 100⟩, none⟩ (Or.inl rfl)).2.1⟩

/-! ## Lemmas and claim theorems for the session store -/

/-- Every error thrown by login is built with the Error constructor
and therefore carries no axios response payload. -/
lemma login_error_detail_none (env : AuthEnv) (data : LoginRequest) (s : AuthState)
    (e : JsError) (s1 : AuthState) (h : login env data s = (.error e, s1)) :
    e.responseDetail = none := by
  unfold login at h
  cases hl : env.loginApi data with
  | error e2 =>
    rw [hl] at h
    simp only [Prod.mk.injEq] at h
    obtain ⟨h1, -⟩ := h
    injection h1 with h1
    rw [← h1]
    rfl
  | ok resp =>
    rw [hl] at h
    cases hg : env.getUser with
    | error e2 =>
      rw [hg] at h
      simp only [Prod.mk.injEq] at h
      obtain ⟨h1, -⟩ := h
      injection h1 with h1
      rw [← h1]
      rfl
    | ok u =>
      rw [hg] at h
      simp only [Prod.mk.injEq] at h
      obtain ⟨h1, -⟩ := h
      exact absurd h1 (by simp)

/-- Claim C4 counterexample: with the registration accepted and the
login rejected with the server detail Invalid credentials, login alone
throws Invalid credentials, while signup throws the generic Signup
failed message, so signup does not carry the message login would
throw. -/
theorem c4_counterexample :
    (signup badLoginEnv sampleSignup emptyAuthState).1 =
      .error (jsNewError "Signup failed") ∧
    (login badLoginEnv ⟨sampleSignup.username, sampleSignup.password⟩ emptyAuthState).1 =
      .error (jsNewError "Invalid credentials") ∧
    jsNewError "Signup failed" ≠ jsNewError "Invalid credentials" := by
  refine ⟨rfl, rfl, ?_⟩
  decide

/-- Claim C4 (amended): on success of the registration request, signup
immediately performs login with the same username and password and
passes a successful login through; when the inner login fails, signup
throws the generic Signup failed message, because the Error thrown by
login carries no server-response detail; when the registration request
itself fails, signup surfaces the server detail of the signup
response. -/
theorem c4_amended_signup_error_semantics (env : AuthEnv) (data : SignupRequest)
    (s : AuthState) :
    (∀ u, env.signupApi data = .ok u →
      signup env data s =
        (match login env { username := data.username, password := data.password } s with
         | (.error _, s1) => (.error (jsNewError "Signup failed"), s1)
         | (.ok u2, s1) => (.ok u2, s1))) ∧
    (∀ e, env.signupApi data = .error e →
      signup env data s = (.error (jsNewError (e.responseDetail.getD "Signup failed")), s)) := by
  constructor
  · intro u hok
    unfold signup
    rw [hok]
    cases hl : login env { username := data.username, password := data.password } s with
    | mk r s1 =>
      cases r with
      | error e =>
        have hd := login_error_detail_none env _ s e s1 hl
        simp [hd]
      | ok u2 => simp
  · intro e herr
    unfold signup
    rw [herr]

/-- Claim C4 witness: the amended semantics applied to the concrete
rejected-login environment. -/
theorem c4_witness :
    signup badLoginEnv sampleSignup emptyAuthState =
      (.error (jsNewError "Signup failed"), emptyAuthState) := by
  have h := (c4_amended_signup_error_semantics badLoginEnv sampleSignup emptyAuthState).1
    sampleUser rfl
  rw [h]
  rfl

/-- Claim C5: on mount, a persisted token triggers exactly one
identity-resolution attempt; a failed attempt removes the token,
surfaces nothing, and leaves the user absent; and in every case there
is exactly one write to the loading cell, the value false, as the last
effect, while loading starts out true. -/
theorem c5_mount_resolution (tok : Option String) (g : Except JsError User) :
    ((checkAuthEvents tok g).filter isResolveAttempt).length =
      (if tok.isSome then 1 else 0) ∧
    (checkAuthEvents tok g).filter isSetLoadingEv = [AuthEvent.setLoadingEv false] ∧
    (checkAuthEvents tok g).getLast? = some (AuthEvent.setLoadingEv false) ∧
    (initialMountState tok).loading = true ∧
    (checkAuthFinal tok g).loading = false ∧
    (∀ t e, tok = some t → g = .error e →
      checkAuthEvents tok g =
        [AuthEvent.resolveAttempt, AuthEvent.removeTokenEv, AuthEvent.setLoadingEv false] ∧
      (checkAuthFinal tok g).token = none ∧
      (checkAuthFinal tok g).user = none) := by
  cases tok <;> cases g <;>
    simp [checkAuthEvents, checkAuthFinal, initialMountState, isResolveAttempt,
      isSetLoadingEv, List.getLast?]

/-- Claim C5 witness: a persisted token whose resolution fails. -/
theorem c5_witness :
    checkAuthEvents (some "tok123") (.error (jsNewError "no session")) =
      [AuthEvent.resolveAttempt, AuthEvent.removeTokenEv, AuthEvent.setLoadingEv false] ∧
    (checkAuthFinal (some "tok123") (.error (jsNewError "no session"))).token = none ∧
    (checkAuthFinal (some "tok123") (.error (jsNewError "no session"))).user = none :=
  (c5_mount_resolution (some "tok123") (.error (jsNewError "no session"))).2.2.2.2.2
    "tok123" (jsNewError "no session") rfl rfl

/-- Claim C7: logout never fails, unconditionally leaves the token
absent and the user empty, navigates to the login destination, is
idempotent on the resulting state, and leaves an already empty session
unchanged. -/
theorem c7_logout_idempotent (s : AuthState) :
    (logout s).1 = .ok () ∧
    (logout s).2.token = none ∧
    (logout s).2.user = none ∧
    (logout s).2.route = some "/login" ∧
    (logout (logout s).2).2 = (logout s).2 ∧
    (s.token = none → s.user = none →
      (logout s).2.token = s.token ∧ (logout s).2.user = s.user) := by
  refine ⟨rfl, rfl, rfl, rfl, rfl, ?_⟩
  intro h1 h2
  exact ⟨h1.symm, h2.symm⟩

/-- Claim C7 witness: logout on the empty session. -/
theorem c7_witness :
    (logout emptyAuthState).1 = .ok () ∧
    (logout emptyAuthState).2.token = emptyAuthState.token ∧
    (logout emptyAuthState).2.user = emptyAuthState.user :=
  ⟨(c7_logout_idempotent emptyAuthState).1,
   ((c7_logout_idempotent emptyAuthState).2.2.2.2.2 rfl rfl).1,
   ((c7_logout_idempotent emptyAuthState).2.2.2.2.2 rfl rfl).2⟩

/-- Claim C9: when the login request succeeds but the subsequent
identity resolution fails, login throws, yet the persisted token it
wrote is not removed, while the in-memory user stays empty. -/
theorem c9_login_not_atomic (env : AuthEnv) (data : LoginRequest) (s : AuthState)
    (resp : AuthResponse) (e : JsError)
    (hl : env.loginApi data = .ok resp) (hg : env.getUser = .error e) (hu : s.user = none) :
    (login env data s).1 = .error (jsNewError (e.responseDetail.getD "Login failed")) ∧
    (login env data s).2.token = some resp.access_token ∧
    (login env data s).2.user = none := by
  unfold login
  rw [hl, hg]
  exact ⟨rfl, rfl, hu⟩

/-- Claim C9 witness: the concrete environment in which identity
resolution fails after a successful login request. -/
theorem c9_witness :
    (login brokenGetUserEnv ⟨"alice", "secret"⟩ emptyAuthState).1 =
      .error (jsNewError "Could not validate credentials") ∧
    (login brokenGetUserEnv ⟨"alice", "secret"⟩ emptyAuthState).2.token = some "tok123" ∧
    (login brokenGetUserEnv ⟨"alice", "secret"⟩ emptyAuthState).2.user = none :=
  c9_login_not_atomic brokenGetUserEnv ⟨"alice", "secret"⟩ emptyAuthState
    ⟨"tok123", "bearer"⟩
    ⟨"Request failed with status code 500", some "Could not validate credentials"⟩
    rfl rfl rfl

/-! ## Lemmas and claim theorem for the history view -/

/-- Rendering of the fractional hundredths always has two digits. -/
lemma padFrac_length (m : ℤ) (h0 : 0 ≤ m) (h1 : m < 100) : (padFrac m).length = 2 := by
  lift m to ℕ using h0 with k
  have hk : k < 100 := by exact_mod_cast h1
  interval_cases k <;> decide

/-- The displayed number of hundredths is within half a hundredth of
the exact value in mebibytes. -/
lemma mibCents_close (bytes : ℕ) :
    |(mibCents bytes : ℚ) - (bytes : ℚ) / 1024 / 1024 * 100| ≤ 1 / 2 := by
  have hle : (mibCents bytes : ℚ) ≤ (bytes : ℚ) / 1024 / 1024 * 100 + 1 / 2 :=
    Int.floor_le _
  have hgt : (bytes : ℚ) / 1024 / 1024 * 100 + 1 / 2 - 1 < (mibCents bytes : ℚ) :=
    Int.sub_one_lt_floor _
  rw [abs_le]
  constructor <;> linarith

/-- Claim C8: the history view renders a file size as the byte count
divided by 1024 twice, with exactly two decimal places (the rendered
hundredths are the correctly rounded value), and keys the status icon
and badge color off the lowercased status, so statuses differing only
in case render identically. -/
theorem c8_history_rendering (bytes : ℕ) (s t : String)
    (h : lowerString s = lowerString t) :
    getStatusIcon s = getStatusIcon t ∧
    getStatusColor s = getStatusColor t ∧
    formatFileSize bytes =
      toString (mibCents bytes / 100) ++ "." ++ padFrac (mibCents bytes % 100) ∧
    (padFrac (mibCents bytes % 100)).length = 2 ∧
    |(mibCents bytes : ℚ) - (bytes : ℚ) / 1024 / 1024 * 100| ≤ 1 / 2 := by
  refine ⟨?_, ?_, rfl, ?_, mibCents_close bytes⟩
  · simp only [getStatusIcon, h]
  · simp only [getStatusColor, h]
  · have h0 : 0 ≤ mibCents bytes % 100 := Int.emod_nonneg _ (by norm_num)
    have h1 : mibCents bytes % 100 < 100 := Int.emod_lt_of_pos _ (by norm_num)
    exact padFrac_length _ h0 h1

/-- Claim C8 witness: COMPLETED and completed render identically, and
one mebibyte renders as 1.00. -/
theorem c8_witness :
    getStatusIcon "COMPLETED" = getStatusIcon "completed" ∧
    getStatusColor "COMPLETED" = getStatusColor "completed" ∧
    formatFileSize 1048576 = "1.00" := by
  have h := c8_history_rendering 1048576 "COMPLETED" "completed" (by decide)
  refine ⟨h.1, h.2.1, ?_⟩
  have hfloor : mibCents 1048576 = 100 := by
    unfold mibCents
    norm_num
  rw [h.2.2.1, hfloor]
  decide

end GstTool
